import Mathlib

/-!
Verification of the Goal-to-Task Converter (`src/app.py`, a Streamlit app).

The development shallowly embeds the app's logic:

* `SYSTEM_PROMPT`, `get_api_key`, `convert_goal_to_tasks` and the submit
  handler of `main` are translated from `src/app.py`; strings are modelled
  as `List Char` where character-level processing matters.
* The remote chat-completion service is an explicit parameter
  `svc : ChatRequest → GenOutcome`: `GenOutcome.success c` models a normal
  reply whose first choice has text `c`, and `GenOutcome.failure e` models
  any exception raised during the call (transport, authentication, service,
  or malformed-response errors), carrying the text `str(e)`.
* Streamlit display calls (`st.error`, `st.warning`, `st.info`,
  `st.success`) are modelled as an emitted list of `UIEvent`s, and
  session state as the `Session` structure.

Known defect of the source: line 94 of `src/app.py` reads

    backticks_html = "```

which is an unterminated string literal — the module does not parse
(Python raises `SyntaxError`), so none of the code can actually run.
The spec and the variable's name make the intended value unambiguous:
the tagged fence marker three-backticks-plus-html.  The embedding below
uses that intended value for `backticks_html` and models the rest of the
file faithfully.
-/

/-- Backtick character (the source writes it as a literal inside the fence
marker strings). -/
def btChar : Char := Char.ofNat 96

/-- Constant system instruction of the app, verbatim from `src/app.py`
lines 19-62. -/
def SYSTEM_PROMPT : String := "**ROLE:** You are a Goal-to-Task Conversion Assistant specializing in breaking down any user goal into actionable, achievable tasks

**TASK:** Convert user goals into detailed project plans with smaller achievable tasks organized by timeline, phases, and priorities

**INPUT:** Users will provide their goals in any area - personal, professional, creative, educational, or business objectives like \"Learn a new language,\" \"Start a business,\" or \"Get organized\"

**OUTPUT:** Generate an HTML response using a professional template structure and styling. Your output must include:
- Modern, elegant CSS styling with a clean color palette
- Color-coded phases (3-5 phases) with circular numbered icons
- Bulleted task lists under each phase (4-8 tasks per phase)
- Professional formatting with smooth hover effects
- Responsive design that works on all devices
- Progress indicators and clear visual hierarchy

**CONSTRAINTS:**
- Never return plain text - always use HTML format
- Return only the HTML code, do not start or end with markdown code blocks, start directly with <!DOCTYPE html>
- Focus on creating actionable, specific tasks rather than vague suggestions
- Include realistic timelines based on goal complexity (days, weeks, months)
- Ensure tasks build logically toward the main goal
- Keep tasks measurable and achievable
- Each task should start with an action verb
- Use distinct harmonious colors for each phase (blues, greens, purples, oranges, teals)

**STRUCTURE REQUIREMENTS:**
1. Header with goal title and motivational description
2. Timeline overview section
3. 3-5 color-coded phase cards, each with:
   - Circular numbered icon
   - Phase title (2-4 words)
   - Timeline estimate
   - 4-8 specific actionable tasks as bullet points
4. Footer with encouragement message

**STYLING REQUIREMENTS:**
- Professional typography using system fonts
- Card-based layout with shadows
- Hover effects (scale, shadow enhancement)
- Proper spacing and padding
- Color coordination across phases
- Mobile-responsive design
- Clean, modern aesthetic

**CAPABILITIES & REMINDERS:** You can break down complex goals into manageable phases (typically 3-5 phases), suggest realistic timelines, prioritize tasks by importance and dependencies. Always structure tasks logically from initial planning through execution and completion. Make the HTML visually appealing and professional."

/-- Tagged fence marker, the intended value of `backticks_html` on line 94
of `src/app.py` (the committed line is an unterminated string literal; the
value is taken from the spec's description of the tagged fence). -/
def backticks_html : List Char := "```html".data

/-- Bare fence marker, `backticks = "```"` from line 95 of `src/app.py`. -/
def backticks : List Char := "```".data

/-- Python `str.isspace` on the ASCII whitespace characters that
`str.strip()` removes (space, tab, newline, carriage return, vertical tab,
form feed).  Python also strips some further Unicode whitespace; the
claims only involve ASCII text, so the ASCII fragment is modelled. -/
def pyIsSpace (c : Char) : Bool :=
  c == ' ' || c == '\t' || c == '\n' || c == '\r' || c == Char.ofNat 11 || c == Char.ofNat 12

/-- Python `str.strip()`: drop leading and trailing whitespace. -/
def pyStrip (l : List Char) : List Char :=
  ((l.dropWhile pyIsSpace).reverse.dropWhile pyIsSpace).reverse

/-- Head-of-list whitespace test, used to state trimmedness. -/
def headIsSpace : List Char → Bool
  | [] => false
  | c :: _ => pyIsSpace c

/-- A list is trimmed when neither its first nor its last character is
whitespace. -/
def isTrimmed (l : List Char) : Bool :=
  !headIsSpace l && !headIsSpace l.reverse

/-- Python `html_output.replace(backticks, "")` specialized to the bare
fence marker: scan left to right, on a three-backtick match skip the
occurrence, otherwise keep the character and continue. -/
def removeTicks : List Char → List Char
  | a :: b :: c :: rest =>
    if a = btChar ∧ b = btChar ∧ c = btChar then removeTicks rest
    else a :: removeTicks (b :: c :: rest)
  | l => l

/-- Python `html_output.replace(backticks_html, "")` specialized to the
seven-character tagged fence marker: scan left to right, on a match of the
full marker skip the occurrence, otherwise keep the character and
continue. -/
def removeTagged : List Char → List Char
  | a :: b :: c :: d :: e :: f :: g :: rest =>
    if [a, b, c, d, e, f, g] = backticks_html then removeTagged rest
    else a :: removeTagged (b :: c :: d :: e :: f :: g :: rest)
  | l => l

/-- Sanitizer block of `convert_goal_to_tasks` (`src/app.py` lines 93-102):
if the response starts with the tagged marker, remove all tagged then all
bare marker occurrences and strip; else if it starts with the bare marker,
remove all bare marker occurrences and strip; otherwise return it
unchanged. -/
def sanitize (html_output : List Char) : List Char :=
  if backticks_html.isPrefixOf html_output then
    pyStrip (removeTicks (removeTagged html_output))
  else if backticks.isPrefixOf html_output then
    pyStrip (removeTicks html_output)
  else html_output

/-- Messages the app surfaces through Streamlit display calls. -/
inductive UIEvent where
  | error (msg : String)
  | warning (msg : String)
  | info (msg : String)
  | success (msg : String)
  deriving DecidableEq

/-- Session-scoped state relevant to the claims: `st.session_state.html_output`
(the Breakdown) and `st.session_state.goal_name`; `none` models an unset key. -/
structure Session where
  html_output : Option (List Char)
  goal_name : Option (List Char)
  deriving DecidableEq

/-- One entry of the `messages` list of the chat-completion request. -/
structure ChatMessage where
  role : String
  content : List Char
  deriving DecidableEq

/-- Chat-completion request as built by `convert_goal_to_tasks`
(`src/app.py` lines 81-89). -/
structure ChatRequest where
  model : String
  messages : List ChatMessage
  temperature : ℚ
  max_tokens : ℕ
  deriving DecidableEq

/-- Outcome of the remote call: the text content of the first response
choice, or an exception (any transport, authentication or service error)
carrying its `str(e)` text. -/
inductive GenOutcome where
  | success (content : List Char)
  | failure (errText : String)

/-- Result of `convert_goal_to_tasks`: the returned value (`none` models
Python `None`), the display calls made, and the chat-completion requests
issued. -/
structure GenResult where
  result : Option (List Char)
  events : List UIEvent
  requests : List ChatRequest

/-- Result of one press of the generate button in `main`: the session
state after the interaction, the display calls made, and the
chat-completion requests issued. -/
structure SubmitResult where
  session : Session
  events : List UIEvent
  requests : List ChatRequest
  deriving DecidableEq

/-- `get_api_key` (`src/app.py` lines 65-72): the secret store is modelled
as `Option String`; a missing key raises `KeyError`/`FileNotFoundError`,
which the function catches, reporting an error and an info message and
returning `None`. -/
def get_api_key (secrets : Option String) : Option String × List UIEvent :=
  match secrets with
  | some k => (some k, [])
  | none =>
    (none,
      [UIEvent.error "⚠️ OpenAI API key not found in secrets!",
       UIEvent.info "Please configure OPENAI_API_KEY in your Streamlit Cloud secrets settings."])

/-- Request built by `client.chat.completions.create(...)` in
`convert_goal_to_tasks`: model `gpt-4o`, the constant system prompt
followed by the user's goal, temperature `0.7`, `max_tokens` 4000. -/
def mkChatRequest (user_goal : List Char) : ChatRequest :=
  { model := "gpt-4o"
    messages := [⟨"system", SYSTEM_PROMPT.data⟩, ⟨"user", user_goal⟩]
    temperature := 7 / 10
    max_tokens := 4000 }

/-- `convert_goal_to_tasks` (`src/app.py` lines 75-106): issue the request;
on success sanitize `response.choices[0].message.content` and return it; on
any exception display the error text and return `None`.  The `api_key`
argument only configures the client and does not affect the request body. -/
def convert_goal_to_tasks (svc : ChatRequest → GenOutcome) (api_key : String)
    (user_goal : List Char) : GenResult :=
  let _ := api_key
  let req := mkChatRequest user_goal
  match svc req with
  | GenOutcome.success content => ⟨some (sanitize content), [], [req]⟩
  | GenOutcome.failure e => ⟨none, [UIEvent.error ("❌ Error: " ++ e)], [req]⟩

/-- Submit handler of `main` (`src/app.py` lines 214-230), for one press of
the generate button with the text-area content `user_goal`: look up the
key; `if not api_key` (None or empty) show the configuration error;
`elif not user_goal.strip()` show the warning; else call
`convert_goal_to_tasks` on the stripped goal and, when the returned value
is truthy (not `None` and not empty), show the success message and store
the Breakdown and goal name in the session. -/
def handleSubmit (secrets : Option String) (svc : ChatRequest → GenOutcome)
    (user_goal : List Char) (sess : Session) : SubmitResult :=
  match get_api_key secrets with
  | (none, ev) =>
    ⟨sess, ev ++ [UIEvent.error "⚠️ API key configuration error. Please contact the app administrator."], []⟩
  | (some k, ev) =>
    if k = "" then
      ⟨sess, ev ++ [UIEvent.error "⚠️ API key configuration error. Please contact the app administrator."], []⟩
    else if pyStrip user_goal = [] then
      ⟨sess, ev ++ [UIEvent.warning "⚠️ Please enter a goal!"], []⟩
    else
      let r := convert_goal_to_tasks svc k (pyStrip user_goal)
      match r.result with
      | some out =>
        if out = [] then ⟨sess, ev ++ r.events, r.requests⟩
        else
          ⟨⟨some out, some (pyStrip user_goal)⟩,
           ev ++ r.events ++ [UIEvent.success "✅ Task breakdown generated successfully!"],
           r.requests⟩
      | none => ⟨sess, ev ++ r.events, r.requests⟩

/-- Timestamp fed to `datetime.now().strftime("%Y%m%d_%H%M%S")`. -/
structure PyTimestamp where
  year : ℕ
  month : ℕ
  day : ℕ
  hour : ℕ
  minute : ℕ
  second : ℕ

/-- Ranges within which the `strftime` model below is faithful (Python
`datetime` years are 1..9999; current timestamps have four-digit years). -/
def validTimestamp (t : PyTimestamp) : Prop :=
  1000 ≤ t.year ∧ t.year ≤ 9999 ∧ 1 ≤ t.month ∧ t.month ≤ 12 ∧
    1 ≤ t.day ∧ t.day ≤ 31 ∧ t.hour ≤ 23 ∧ t.minute ≤ 59 ∧ t.second ≤ 59

/-- Decimal digit character for `n % 10`. -/
def digitChar (n : ℕ) : Char := Char.ofNat (48 + n % 10)

/-- Two-digit zero-padded decimal of `n` (faithful to `%m`, `%d`, `%H`,
`%M`, `%S` for `n < 100`). -/
def pad2 (n : ℕ) : List Char := [digitChar (n / 10), digitChar n]

/-- Four-digit decimal of `n` (faithful to `%Y` for `1000 ≤ n ≤ 9999`). -/
def pad4 (n : ℕ) : List Char :=
  [digitChar (n / 1000), digitChar (n / 100), digitChar (n / 10), digitChar n]

/-- `datetime.now().strftime("%Y%m%d_%H%M%S")` (`src/app.py` line 248). -/
def strftimeYmdHMS (t : PyTimestamp) : List Char :=
  pad4 t.year ++ pad2 t.month ++ pad2 t.day ++
    '_' :: (pad2 t.hour ++ pad2 t.minute ++ pad2 t.second)

/-- `filename = f"goal_breakdown_{timestamp}.html"` (`src/app.py` line 249). -/
def breakdownFilename (t : PyTimestamp) : List Char :=
  "goal_breakdown_".data ++ strftimeYmdHMS t ++ ".html".data

/-- Download artifact offered by `st.download_button`. -/
structure DownloadArtifact where
  data : List Char
  file_name : List Char
  mime : String
  deriving DecidableEq

/-- Download tab of `main` (`src/app.py` lines 244-258): rendered only when
`"html_output" in st.session_state`; the button serves the stored string as
is, under the timestamped filename, with MIME type `text/html`. -/
def renderDownloadTab (t : PyTimestamp) (sess : Session) : Option DownloadArtifact :=
  match sess.html_output with
  | none => none
  | some out => some ⟨out, breakdownFilename t, "text/html"⟩

/-- Count of leading backticks; drives the argument that removal of the
bare marker leaves no marker occurrence behind. -/
def leadTicks (l : List Char) : ℕ := (l.takeWhile (fun c => c == btChar)).length

/-! ### Helper lemmas about the fence-removal scan -/

lemma backticks_eq : backticks = [btChar, btChar, btChar] := rfl

lemma removeTicks_cons3 (a b c : Char) (rest : List Char) :
    removeTicks (a :: b :: c :: rest) =
      if a = btChar ∧ b = btChar ∧ c = btChar then removeTicks rest
      else a :: removeTicks (b :: c :: rest) := rfl

lemma len_le_two_of_no3 {l : List Char}
    (h : ∀ (a b c : Char) (rest : List Char), l = a :: b :: c :: rest → False) :
    l.length ≤ 2 := by
  cases l with
  | nil => simp
  | cons a t =>
    cases t with
    | nil => simp
    | cons b t' =>
      cases t' with
      | nil => simp
      | cons c r => exact (h a b c r rfl).elim

lemma removeTicks_short (l : List Char) (h : l.length ≤ 2) : removeTicks l = l := by
  cases l with
  | nil => rfl
  | cons a t =>
    cases t with
    | nil => rfl
    | cons b t' =>
      cases t' with
      | nil => rfl
      | cons c r => simp [List.length_cons] at h

lemma leadTicks_cons (a : Char) (l : List Char) :
    leadTicks (a :: l) = if a = btChar then leadTicks l + 1 else 0 := by
  by_cases h : a = btChar
  · simp [leadTicks, List.takeWhile_cons, beq_iff_eq, h]
  · simp [leadTicks, List.takeWhile_cons, beq_iff_eq, h]

lemma leadTicks_removeTicks_le (l : List Char) :
    leadTicks (removeTicks l) ≤ leadTicks l := by
  induction l using removeTicks.induct with
  | case1 a b c rest h ih =>
    obtain ⟨ha, hb, hc⟩ := h
    subst ha; subst hb; subst hc
    rw [removeTicks_cons3, if_pos ⟨rfl, rfl, rfl⟩]
    rw [leadTicks_cons, if_pos rfl, leadTicks_cons, if_pos rfl, leadTicks_cons, if_pos rfl]
    omega
  | case2 a b c rest h ih =>
    rw [removeTicks_cons3, if_neg h]
    by_cases ha : a = btChar
    · subst ha
      rw [leadTicks_cons, if_pos rfl, leadTicks_cons, if_pos rfl]
      exact Nat.add_le_add_right ih 1
    · rw [leadTicks_cons, if_neg ha]
      exact Nat.zero_le _
  | case3 l h =>
    rw [removeTicks_short l (len_le_two_of_no3 h)]

lemma two_le_leadTicks {t : List Char} (h : [btChar, btChar] <+: t) :
    2 ≤ leadTicks t := by
  rcases h with ⟨u, rfl⟩
  show 2 ≤ leadTicks (btChar :: btChar :: u)
  rw [leadTicks_cons, if_pos rfl, leadTicks_cons, if_pos rfl]
  omega

lemma pre_cons_decomp {a : Char} {R : List Char} (hp : backticks <+: a :: R) :
    a = btChar ∧ [btChar, btChar] <+: R := by
  rw [backticks_eq] at hp
  rcases hp with ⟨u, hu⟩
  simp only [List.cons_append, List.nil_append] at hu
  injection hu with h1 h2
  exact ⟨h1.symm, ⟨u, h2⟩⟩

lemma noFenceIn_removeTicks (l : List Char) : ¬ (backticks <:+: removeTicks l) := by
  induction l using removeTicks.induct with
  | case1 a b c rest h ih =>
    rw [removeTicks_cons3, if_pos h]
    exact ih
  | case2 a b c rest h ih =>
    rw [removeTicks_cons3, if_neg h]
    intro hc
    rcases List.infix_cons_iff.mp hc with hp | hi
    · obtain ⟨ha, hbb⟩ := pre_cons_decomp hp
      have h2 : 2 ≤ leadTicks (removeTicks (b :: c :: rest)) := two_le_leadTicks hbb
      have h3 : leadTicks (b :: c :: rest) ≤ 1 := by
        subst ha
        by_cases hb : b = btChar
        · subst hb
          have hcb : ¬ (c = btChar) := fun hcb => h ⟨rfl, rfl, hcb⟩
          rw [leadTicks_cons, if_pos rfl, leadTicks_cons, if_neg hcb]
        · rw [leadTicks_cons, if_neg hb]
          omega
      have h4 := leadTicks_removeTicks_le (b :: c :: rest)
      omega
    · exact ih hi
  | case3 l h =>
    rw [removeTicks_short l (len_le_two_of_no3 h)]
    intro hc
    have h3 := hc.length_le
    have h2 := len_le_two_of_no3 h
    rw [backticks_eq] at h3
    simp only [List.length_cons, List.length_nil] at h3
    omega

lemma removeTicks_sublist (l : List Char) : List.Sublist (removeTicks l) l := by
  induction l using removeTicks.induct with
  | case1 a b c rest h ih =>
    rw [removeTicks_cons3, if_pos h]
    exact ih.trans (List.Sublist.cons a (List.Sublist.cons b (List.Sublist.cons c (List.Sublist.refl rest))))
  | case2 a b c rest h ih =>
    rw [removeTicks_cons3, if_neg h]
    exact List.Sublist.cons₂ a ih
  | case3 l h =>
    rw [removeTicks_short l (len_le_two_of_no3 h)]

lemma removeTicks_filter (l : List Char) :
    (removeTicks l).filter (fun c => !(c == btChar)) = l.filter (fun c => !(c == btChar)) := by
  induction l using removeTicks.induct with
  | case1 a b c rest h ih =>
    obtain ⟨ha, hb, hc⟩ := h
    subst ha; subst hb; subst hc
    rw [removeTicks_cons3, if_pos ⟨rfl, rfl, rfl⟩, ih]
    simp [List.filter_cons]
  | case2 a b c rest h ih =>
    rw [removeTicks_cons3, if_neg h]
    rw [List.filter_cons, List.filter_cons, ih]
  | case3 l h =>
    rw [removeTicks_short l (len_le_two_of_no3 h)]

/-! ### Helper lemmas about stripping -/

lemma headIsSpace_dropWhile (l : List Char) :
    headIsSpace (List.dropWhile pyIsSpace l) = false := by
  induction l with
  | nil => rfl
  | cons c t ih =>
    rw [List.dropWhile_cons]
    by_cases h : pyIsSpace c = true
    · rw [if_pos h]
      exact ih
    · rw [if_neg h]
      show pyIsSpace c = false
      simpa using h

lemma headIsSpace_of_pre {x y : List Char} (h : x <+: y) (hy : headIsSpace y = false) :
    headIsSpace x = false := by
  cases x with
  | nil => rfl
  | cons c t =>
    rcases h with ⟨u, rfl⟩
    simpa [headIsSpace, List.cons_append] using hy

lemma pyStrip_pre (l : List Char) : pyStrip l <+: List.dropWhile pyIsSpace l := by
  unfold pyStrip
  rcases List.dropWhile_suffix (l := (List.dropWhile pyIsSpace l).reverse) pyIsSpace with ⟨s, hs⟩
  refine ⟨s.reverse, ?_⟩
  rw [← List.reverse_append, hs, List.reverse_reverse]

lemma pyStrip_trimmed (l : List Char) : isTrimmed (pyStrip l) = true := by
  have h1 : headIsSpace (pyStrip l) = false :=
    headIsSpace_of_pre (pyStrip_pre l) (headIsSpace_dropWhile l)
  have h2 : headIsSpace (pyStrip l).reverse = false := by
    show headIsSpace ((((l.dropWhile pyIsSpace).reverse.dropWhile pyIsSpace).reverse).reverse) = false
    rw [List.reverse_reverse]
    exact headIsSpace_dropWhile _
  simp [isTrimmed, h1, h2]

lemma pyStrip_in (l : List Char) : pyStrip l <:+: l := by
  rcases pyStrip_pre l with ⟨t, ht⟩
  rcases List.dropWhile_suffix (l := l) pyIsSpace with ⟨s, hs⟩
  exact ⟨s, t, by rw [List.append_assoc, ht, hs]⟩

lemma no_fence_pyStrip {x : List Char} (h : ¬ (backticks <:+: x)) :
    ¬ (backticks <:+: pyStrip x) :=
  fun hc => h (hc.trans (pyStrip_in x))

/-! ### Branch lemmas for the sanitizer -/

lemma bare_of_tagged {s : List Char} (h : backticks_html.isPrefixOf s = true) :
    backticks.isPrefixOf s = true := by
  rw [ List.isPrefixOf_iff_prefix] at h ⊢
  exact List.IsPrefix.trans (by decide) h

lemma sanitize_tagged {s : List Char} (h : backticks_html.isPrefixOf s = true) :
    sanitize s = pyStrip (removeTicks (removeTagged s)) := by
  simp [sanitize, h]

lemma sanitize_bare {s : List Char} (h1 : backticks_html.isPrefixOf s = false)
    (h2 : backticks.isPrefixOf s = true) :
    sanitize s = pyStrip (removeTicks s) := by
  simp [sanitize, h1, h2]

lemma sanitize_plain {s : List Char} (h : backticks.isPrefixOf s = false) :
    sanitize s = s := by
  have h1 : backticks_html.isPrefixOf s = false := by
    by_contra hc
    have h2 : backticks_html.isPrefixOf s = true := by
      revert hc
      cases backticks_html.isPrefixOf s <;> simp
    rw [bare_of_tagged h2] at h
    cases h
  simp [sanitize, h1, h]

lemma digitChar_isDigit (n : ℕ) : (digitChar n).isDigit = true := by
  have h : n % 10 < 10 := Nat.mod_lt _ (by norm_num)
  unfold digitChar
  revert h
  generalize n % 10 = m
  intro h
  interval_cases m <;> decide

/-! ### Claim theorems -/

/-- Sanity check: the spec's end-to-end testable property for the
sanitizer. -/
example :
    sanitize ("```html\n<!DOCTYPE html>...</html>\n```".data) =
      "<!DOCTYPE html>...</html>".data := by decide

/-- C1: for a Generator response beginning with the tagged fence marker,
the sanitizer returns the response with every occurrence of the tagged
marker and then every occurrence of the bare marker removed (Python
left-to-right replace scans) and the result stripped of surrounding
whitespace; consequently no bare fence marker occurrence survives, and the
result is trimmed.  On the committed source this branch is unreachable —
line 94's string literal is unterminated, so the module does not parse;
the theorem is about the spec-intended tagged marker. -/
theorem tagged_fence_branch_strips_both_markers (s : List Char)
    (h : backticks_html.isPrefixOf s = true) :
    sanitize s = pyStrip (removeTicks (removeTagged s)) ∧
    ¬ (backticks <:+: sanitize s) ∧
    isTrimmed (sanitize s) = true := by
  refine ⟨sanitize_tagged h, ?_, ?_⟩
  · rw [sanitize_tagged h]
    exact no_fence_pyStrip (noFenceIn_removeTicks (removeTagged s))
  · rw [sanitize_tagged h]
    exact pyStrip_trimmed _

/-- Witness for C1 at a concrete tagged-fence response. -/
theorem tagged_fence_branch_strips_both_markers_check :
    backticks_html.isPrefixOf ("```html\n<p>A</p>\n```".data) = true ∧
    (sanitize ("```html\n<p>A</p>\n```".data) =
        pyStrip (removeTicks (removeTagged ("```html\n<p>A</p>\n```".data))) ∧
      ¬ (backticks <:+: sanitize ("```html\n<p>A</p>\n```".data)) ∧
      isTrimmed (sanitize ("```html\n<p>A</p>\n```".data)) = true) :=
  ⟨by decide, tagged_fence_branch_strips_both_markers _ (by decide)⟩

/-- C2: for a Generator response that does not begin with the tagged
marker but begins with the bare marker, the sanitizer removes every bare
marker occurrence and strips the result; no bare marker occurrence
survives, the result is trimmed, and nothing other than backtick
characters is removed before the final strip (the scan output is a
sublist of the input agreeing with it on all non-backtick characters). -/
theorem bare_fence_branch_strips_bare_marker (s : List Char)
    (h1 : backticks_html.isPrefixOf s = false)
    (h2 : backticks.isPrefixOf s = true) :
    sanitize s = pyStrip (removeTicks s) ∧
    ¬ (backticks <:+: sanitize s) ∧
    isTrimmed (sanitize s) = true ∧
    List.Sublist (removeTicks s) s ∧
    (removeTicks s).filter (fun c => !(c == btChar)) = s.filter (fun c => !(c == btChar)) := by
  refine ⟨sanitize_bare h1 h2, ?_, ?_, removeTicks_sublist s, removeTicks_filter s⟩
  · rw [sanitize_bare h1 h2]
    exact no_fence_pyStrip (noFenceIn_removeTicks s)
  · rw [sanitize_bare h1 h2]
    exact pyStrip_trimmed _

/-- Witness for C2 at a concrete bare-fence response. -/
theorem bare_fence_branch_strips_bare_marker_check :
    backticks_html.isPrefixOf ("``` <p>B</p> ```".data) = false ∧
    backticks.isPrefixOf ("``` <p>B</p> ```".data) = true ∧
    sanitize ("``` <p>B</p> ```".data) = pyStrip (removeTicks ("``` <p>B</p> ```".data)) :=
  ⟨by decide, by decide,
    (bare_fence_branch_strips_bare_marker _ (by decide) (by decide)).1⟩

/-- C3: a Generator response containing no occurrence of the bare fence
marker is returned by the sanitizer unchanged, character for character. -/
theorem no_fence_response_unchanged (s : List Char)
    (h : ¬ (backticks <:+: s)) : sanitize s = s := by
  apply sanitize_plain
  by_contra hc
  have h2 : backticks.isPrefixOf s = true := by
    revert hc
    cases backticks.isPrefixOf s <;> simp
  rw [ List.isPrefixOf_iff_prefix] at h2
  exact h (List.IsPrefix.isInfix h2)

/-- Witness for C3 at a concrete fence-free response. -/
theorem no_fence_response_unchanged_check :
    ¬ (backticks <:+: ("<p>Plain code</p>".data)) ∧
    sanitize ("<p>Plain code</p>".data) = "<p>Plain code</p>".data :=
  ⟨by decide, no_fence_response_unchanged _ (by decide)⟩

/-- C4 as stated is false on the code: the no-fence branch returns the
response unchanged, so surrounding whitespace survives; shown at the
two-character response consisting of a space and an x. -/
theorem untrimmed_plain_response_counterexample :
    sanitize (' ' :: 'x' :: []) = ' ' :: 'x' :: [] ∧
    isTrimmed (' ' :: 'x' :: []) = false := by decide

/-- C4 amended: the sanitizer's result is trimmed of surrounding
whitespace whenever the response begins with a fence marker (tagged or
bare); a response not beginning with a fence marker is returned unchanged
and may retain surrounding whitespace. -/
theorem trimming_only_on_fence_branches (s : List Char) :
    (backticks.isPrefixOf s = true → isTrimmed (sanitize s) = true) ∧
    (backticks.isPrefixOf s = false → sanitize s = s) := by
  constructor
  · intro h2
    by_cases h1 : backticks_html.isPrefixOf s = true
    · rw [sanitize_tagged h1]
      exact pyStrip_trimmed _
    · have h1' : backticks_html.isPrefixOf s = false := by
        revert h1
        cases backticks_html.isPrefixOf s <;> simp
      rw [sanitize_bare h1' h2]
      exact pyStrip_trimmed _
  · exact fun h => sanitize_plain h

/-- Witness for C4-amended at a concrete bare-fence response with inner
whitespace. -/
theorem trimming_only_on_fence_branches_check :
    backticks.isPrefixOf ("``` x ".data) = true ∧
    isTrimmed (sanitize ("``` x ".data)) = true :=
  ⟨by decide, (trimming_only_on_fence_branches _).1 (by decide)⟩

/-- C5: with a credential available (non-null and non-empty, so that the
truthiness check passes), submitting a goal that strips to the empty
string shows the warning, leaves the session unchanged, and issues no
chat-completion request. -/
theorem empty_goal_warns_without_generator_call (k : String) (goal : List Char)
    (sess : Session) (svc : ChatRequest → GenOutcome)
    (hk : ¬ (k = "")) (hg : pyStrip goal = []) :
    handleSubmit (some k) svc goal sess =
      ⟨sess, [UIEvent.warning "⚠️ Please enter a goal!"], []⟩ := by
  simp [handleSubmit, get_api_key, hk, hg]

/-- Witness for C5 at a whitespace-only goal. -/
theorem empty_goal_warns_without_generator_call_check :
    ¬ (("sk-test" : String) = "") ∧ pyStrip ("   ".data) = [] ∧
    handleSubmit (some "sk-test") (fun _ => GenOutcome.failure "unused") ("   ".data)
        ⟨none, none⟩ =
      ⟨⟨none, none⟩, [UIEvent.warning "⚠️ Please enter a goal!"], []⟩ :=
  ⟨by decide, by decide,
    empty_goal_warns_without_generator_call _ _ _ _ (by decide) (by decide)⟩

/-- C6: when the generation call raises any exception, the function
returns `None` after displaying an error whose text contains the
underlying error text, and the submit handler leaves the session (and in
particular any previously stored Breakdown) unchanged, showing no success
message; the exception is consumed inside `convert_goal_to_tasks` (in the
model every outcome yields a total result, never a propagated fault). -/
theorem generation_failure_reported_and_state_unchanged (k : String) (goal : List Char)
    (sess : Session) (svc : ChatRequest → GenOutcome) (e : String)
    (hk : ¬ (k = "")) (hg : ¬ (pyStrip goal = []))
    (hf : svc (mkChatRequest (pyStrip goal)) = GenOutcome.failure e) :
    (convert_goal_to_tasks svc k (pyStrip goal)).result = none ∧
    (convert_goal_to_tasks svc k (pyStrip goal)).events =
      [UIEvent.error ("❌ Error: " ++ e)] ∧
    handleSubmit (some k) svc goal sess =
      ⟨sess, [UIEvent.error ("❌ Error: " ++ e)], [mkChatRequest (pyStrip goal)]⟩ := by
  refine ⟨?_, ?_, ?_⟩ <;>
    simp [handleSubmit, convert_goal_to_tasks, get_api_key, hk, hg, hf]

/-- Witness for C6 at a concrete forced failure. -/
theorem generation_failure_reported_and_state_unchanged_check :
    ¬ (("sk-test" : String) = "") ∧ ¬ (pyStrip ("Learn Spanish in 6 months".data) = []) ∧
    handleSubmit (some "sk-test") (fun _ => GenOutcome.failure "boom")
        ("Learn Spanish in 6 months".data) ⟨some ("old".data), none⟩ =
      ⟨⟨some ("old".data), none⟩, [UIEvent.error ("❌ Error: " ++ "boom")],
        [mkChatRequest (pyStrip ("Learn Spanish in 6 months".data))]⟩ :=
  ⟨by decide, by decide,
    (generation_failure_reported_and_state_unchanged _ _ _ _ _
      (by decide) (by decide) rfl).2.2⟩

/-- C7: with the credential absent from the secret store, `get_api_key`
returns `None` after displaying the configuration error and info messages,
and a subsequent submission (whatever the goal, even an empty one) stops
at the credential check: it shows the administrator error, never shows the
goal warning, leaves the session unchanged, and issues no request. -/
theorem missing_credential_blocks_submission (svc : ChatRequest → GenOutcome)
    (goal : List Char) (sess : Session) :
    get_api_key none =
      (none,
        [UIEvent.error "⚠️ OpenAI API key not found in secrets!",
         UIEvent.info "Please configure OPENAI_API_KEY in your Streamlit Cloud secrets settings."]) ∧
    handleSubmit none svc goal sess =
      ⟨sess,
        [UIEvent.error "⚠️ OpenAI API key not found in secrets!",
         UIEvent.info "Please configure OPENAI_API_KEY in your Streamlit Cloud secrets settings.",
         UIEvent.error "⚠️ API key configuration error. Please contact the app administrator."],
        []⟩ :=
  ⟨rfl, rfl⟩

/-- C8: every call of `convert_goal_to_tasks` issues exactly one
chat-completion request, whose body is the fixed model name, the constant
system prompt followed by the user's goal as the user message, temperature
0.7 and a 4000-token response cap; and on success the raw text of the
first choice is what is handed to the sanitizer. -/
theorem single_request_shape_and_raw_content (svc : ChatRequest → GenOutcome)
    (api_key : String) (user_goal : List Char) (_hg : ¬ (user_goal = [])) :
    (convert_goal_to_tasks svc api_key user_goal).requests = [mkChatRequest user_goal] ∧
    mkChatRequest user_goal =
      { model := "gpt-4o"
        messages := [⟨"system", SYSTEM_PROMPT.data⟩, ⟨"user", user_goal⟩]
        temperature := 7 / 10
        max_tokens := 4000 } ∧
    (∀ content, svc (mkChatRequest user_goal) = GenOutcome.success content →
      (convert_goal_to_tasks svc api_key user_goal).result = some (sanitize content)) := by
  refine ⟨?_, rfl, ?_⟩
  · cases h : svc (mkChatRequest user_goal) <;> simp [convert_goal_to_tasks, h]
  · intro content h
    simp [convert_goal_to_tasks, h]

/-- Witness for C8 at a concrete goal and service. -/
theorem single_request_shape_and_raw_content_check :
    ¬ (("Start a business".data : List Char) = []) ∧
    (convert_goal_to_tasks (fun _ => GenOutcome.success ("<p>ok</p>".data)) "sk-test"
        ("Start a business".data)).requests =
      [mkChatRequest ("Start a business".data)] :=
  ⟨by decide,
    (single_request_shape_and_raw_content _ _ _ (by decide)).1⟩

/-- C9: whenever a Breakdown is stored in the session, the download tab
offers an artifact whose content is exactly the stored string, whose MIME
type is text/html and whose filename matches
goal_breakdown_<8 digits>_<6 digits>.html, the digits coming from the
current timestamp. -/
theorem download_artifact_content_mime_filename (t : PyTimestamp) (sess : Session)
    (out : List Char) (_hv : validTimestamp t) (hs : sess.html_output = some out) :
    ∃ d8 d6 : List Char,
      renderDownloadTab t sess =
        some ⟨out, "goal_breakdown_".data ++ d8 ++ '_' :: d6 ++ ".html".data, "text/html"⟩ ∧
      d8.length = 8 ∧ d6.length = 6 ∧
      (∀ c ∈ d8, c.isDigit = true) ∧ (∀ c ∈ d6, c.isDigit = true) := by
  refine ⟨pad4 t.year ++ pad2 t.month ++ pad2 t.day,
          pad2 t.hour ++ pad2 t.minute ++ pad2 t.second, ?_, ?_, ?_, ?_, ?_⟩
  · simp [renderDownloadTab, hs, breakdownFilename, strftimeYmdHMS, pad4, pad2]
  · simp [pad4, pad2]
  · simp [pad2]
  · intro c hc
    simp [pad4, pad2] at hc
    rcases hc with h | h | h | h | h | h | h | h <;> (subst h; exact digitChar_isDigit _)
  · intro c hc
    simp [pad2] at hc
    rcases hc with h | h | h | h | h | h <;> (subst h; exact digitChar_isDigit _)

/-- Witness for C9 at a concrete timestamp and stored Breakdown. -/
theorem download_artifact_content_mime_filename_check :
    validTimestamp ⟨2026, 10, 12, 14, 30, 5⟩ ∧
    (∃ d8 d6 : List Char,
      renderDownloadTab ⟨2026, 10, 12, 14, 30, 5⟩ ⟨some ("<p>x</p>".data), none⟩ =
        some ⟨"<p>x</p>".data,
          "goal_breakdown_".data ++ d8 ++ '_' :: d6 ++ ".html".data, "text/html"⟩ ∧
      d8.length = 8 ∧ d6.length = 6 ∧
      (∀ c ∈ d8, c.isDigit = true) ∧ (∀ c ∈ d6, c.isDigit = true)) :=
  ⟨by norm_num [validTimestamp],
    download_artifact_content_mime_filename _ _ _ (by norm_num [validTimestamp]) rfl⟩

/-- C10: when the generation call succeeds but the sanitized output is
empty, the truthiness check `if html_output:` fails, so the handler shows
no success message (indeed no message at all), stores nothing in the
session, and the interaction is indistinguishable from a failure at the
session level, although the request was issued. -/
theorem empty_sanitized_output_treated_as_failure (k : String) (goal : List Char)
    (sess : Session) (svc : ChatRequest → GenOutcome) (content : List Char)
    (hk : ¬ (k = "")) (hg : ¬ (pyStrip goal = []))
    (hsv : svc (mkChatRequest (pyStrip goal)) = GenOutcome.success content)
    (he : sanitize content = []) :
    handleSubmit (some k) svc goal sess = ⟨sess, [], [mkChatRequest (pyStrip goal)]⟩ := by
  simp [handleSubmit, get_api_key, hk, hg, convert_goal_to_tasks, hsv, he]

/-- Witness for C10 at a response consisting only of fence markers and
whitespace. -/
theorem empty_sanitized_output_treated_as_failure_check :
    ¬ (("sk-test" : String) = "") ∧ ¬ (pyStrip ("Write a novel".data) = []) ∧
    sanitize ("```html\n```".data) = [] ∧
    handleSubmit (some "sk-test") (fun _ => GenOutcome.success ("```html\n```".data))
        ("Write a novel".data) ⟨none, none⟩ =
      ⟨⟨none, none⟩, [], [mkChatRequest (pyStrip ("Write a novel".data))]⟩ :=
  ⟨by decide, by decide, by decide,
    empty_sanitized_output_treated_as_failure _ _ _ _ _
      (by decide) (by decide) rfl (by decide)⟩
